import Mathlib

/-!
Verification of the Healthify repository's feature-vectorization and
risk-scoring contract.

The development shallowly embeds:
* `prepare_symptoms_array` (backend `helper.py`, symptom-path vectorizer),
* the client form submission pipelines (diabetes, heart, kidney, breast
  pages and the sample-data generator),
* the lung / Parkinsons result presentation logic,
* and, where the backend service code is absent from the snapshot, the
  spec-described `classify` thresholds and categorical encoding lookup.
-/

namespace Healthify

/-! ## Symptom-path vectorizer (`prepare_symptoms_array` in backend/helper.py)

The Python function receives a JSON-decoded list of symptom entries.  A
well-formed entry is a string; anything else makes `symptom.lower()` raise
inside the per-symptom `try`, which the function catches and logs.  A
`Token` models one incoming list element. -/

/-- One element of the incoming symptom list: `ok s` is an ordinary string
token; `bad s` is a malformed element (e.g. a non-string JSON value) whose
processing raises, with `s` its printed form. -/
inductive Token where
  | ok (s : String)
  | bad (s : String)
deriving DecidableEq, Repr

/-- The printed form of a token, as used in the diagnostic messages. -/
def tokenStr : Token → String
  | .ok s => s
  | .bad s => s

/-- Diagnostics printed by `prepare_symptoms_array`:
`notFound s` models `print(f"Warning: Symptom s not found in dataset")`,
`procError s` models `print(f"Error processing symptom s: ...")`. -/
inductive LogEntry where
  | notFound (symptom : String)
  | procError (symptom : String)
deriving DecidableEq, Repr

/-- The case-folded comparison `col.lower() == symptom.lower()`, modelled
character by character over the strings' character lists. -/
def lowerEq (a b : String) : Bool :=
  a.data.map Char.toLower == b.data.map Char.toLower

/-- The match list `matching_cols = [col for col in df.columns if col.lower() == symptom.lower()]`. -/
def matchingCols (columns : List String) (s : String) : List String :=
  columns.filter (fun c => lowerEq c s)

/-- The lookup `df.columns.get_loc(c)`: index of the first column equal to `c`
(`c` is always drawn from `matchingCols`, so the absent case never arises;
it is mapped to 0). -/
def getLoc (columns : List String) (c : String) : Nat :=
  match columns with
  | [] => 0
  | x :: xs => if x == c then 0 else getLoc xs c + 1

/-- Index of the first column whose case-folded form equals the case-folded
token, if any.  Used to state properties of the matching loop. -/
def firstMatchIdx (columns : List String) (s : String) : Option Nat :=
  match columns with
  | [] => none
  | c :: cs => if lowerEq c s then some 0 else (firstMatchIdx cs s).map (· + 1)

/-- The body of the per-symptom `try` block: on a malformed token,
`.lower()` raises; otherwise compute `matching_cols`; if empty, print the
not-found warning; else `symptoms_array[0, get_loc(matching_cols[0])] = 1`,
which raises `IndexError` when the index falls outside the array (the
array has one slot fewer than there are columns). -/
def processSymptom (columns : List String) (vec : List Nat) :
    Token → Except String (List Nat × List LogEntry)
  | .bad s => .error s
  | .ok s =>
    match matchingCols columns s with
    | [] => .ok (vec, [.notFound s])
    | c :: _ =>
      let i := getLoc columns c
      if i < vec.length then .ok (vec.set i 1, []) else .error s

/-- One iteration of the symptom loop: the surrounding `except` absorbs any
error, logs it, and leaves the array untouched. -/
def stepSymptom (columns : List String) (acc : List Nat × List LogEntry)
    (t : Token) : List Nat × List LogEntry :=
  match processSymptom columns acc.1 t with
  | .ok (v, l) => (v, acc.2 ++ l)
  | .error s => (acc.1, acc.2 ++ [.procError s])

/-- The function `prepare_symptoms_array`: allocate `np.zeros((1, len(df.columns) - 1))`
and run the symptom loop; returns the final array together with the
diagnostics printed along the way. -/
def prepare_symptoms_array (columns : List String) (symptoms : List Token) :
    List Nat × List LogEntry :=
  symptoms.foldl (stepSymptom columns)
    (List.replicate (columns.length - 1) 0, [])

/-- Whether processing a token raises inside the `try` (and is then caught):
either the token is malformed, or its first case-insensitive match is the
final (label) column, so the array assignment is out of range. -/
def raisesOn (columns : List String) : Token → Bool
  | .bad _ => true
  | .ok s =>
    match firstMatchIdx columns s with
    | some k => decide (columns.length - 1 ≤ k)
    | none => false

/-- The array component of one loop iteration, in isolation (the log has no
influence on it); used to reason about the fold. -/
def vecStep (columns : List String) (vec : List Nat) (t : Token) : List Nat :=
  match processSymptom columns vec t with
  | .ok (v, _) => v
  | .error _ => vec

/-! ## Shared client-side value model

The client pages convert form strings with the JavaScript `Number()` /
`parseFloat()` builtins before POSTing JSON.  `JVal` is a JSON-able value
as the transformed payloads hold them. -/

/-- A transformed payload value: a finite number, the non-finite `NaN`
result of a failed conversion, or a categorical string passed through
unchanged. -/
inductive JVal where
  | num (q : ℚ)
  | nan
  | str (s : String)
deriving DecidableEq, Repr

/-- The value of a non-empty all-digit character list. -/
def digitsToNat? (s : List Char) : Option Nat :=
  if s ≠ [] ∧ s.all Char.isDigit then
    some (s.foldl (fun n c => n * 10 + (c.toNat - 48)) 0)
  else none

/-- Split a character list at the dots (the shape `intpart.fracpart` of the
decimal numerals the forms produce). -/
def splitDot : List Char → List (List Char)
  | [] => [[]]
  | c :: cs =>
    if c = '.' then [] :: splitDot cs
    else
      match splitDot cs with
      | [] => [[c]]
      | h :: t => (c :: h) :: t

/-- Modelled semantics of the JavaScript `Number()` conversion restricted
to the strings these forms produce: the empty string converts to 0, a
non-negative decimal numeral (with at most one fractional part) to its
value, and anything else to NaN (`none`). -/
def jsNumber? (s : String) : Option ℚ :=
  if s.data = [] then some 0
  else
    match splitDot s.data with
    | [a] => (digitsToNat? a).map (fun n => mkRat n 1)
    | [a, b] =>
      match digitsToNat? a, digitsToNat? b with
      | some n, some f => some (mkRat (n * 10 ^ b.length + f) (10 ^ b.length))
      | _, _ => none
    | _ => none

/-- The conversion `Number(value)` as a `JVal`. -/
def jsNumberVal (s : String) : JVal :=
  match jsNumber? s with
  | some q => .num q
  | none => .nan

/-- The conversion `parseFloat(value)` as a `JVal`: on the strings these forms hold (plain
decimal numerals or the empty string) it agrees with `Number()` except
that the empty string gives NaN. -/
def jsParseFloat (s : String) : JVal :=
  if s.data = [] then .nan else jsNumberVal s

/-! ## Diabetes client form (src/app/diabetes/page.tsx, `handlePredict`) -/

/-- The diabetes form state: eight string-valued inputs. -/
structure DiabetesForm where
  Pregnancies : String
  Glucose : String
  BloodPressure : String
  SkinThickness : String
  Insulin : String
  BMI : String
  DiabetesPedigreeFunction : String
  Age : String

/-- The JSON body built by `handlePredict`: the object literal's members in
source order, each value `Number(formData.field)`; `none` if any field
fails numeric conversion. -/
def diabetesRequestBody (f : DiabetesForm) : Option (List (String × ℚ)) := do
  let p ← jsNumber? f.Pregnancies
  let g ← jsNumber? f.Glucose
  let bp ← jsNumber? f.BloodPressure
  let st ← jsNumber? f.SkinThickness
  let ins ← jsNumber? f.Insulin
  let bmi ← jsNumber? f.BMI
  let dpf ← jsNumber? f.DiabetesPedigreeFunction
  let age ← jsNumber? f.Age
  return [("Pregnancies", p), ("Glucose", g), ("BloodPressure", bp),
    ("SkinThickness", st), ("Insulin", ins), ("BMI", bmi),
    ("DiabetesPedigreeFunction", dpf), ("Age", age)]

/-! ## Heart client form (src/app/heart/page.tsx, src/utils/sampleData.ts) -/

/-- The heart page's initial `useState` form object: twelve keys in source
order. -/
def heartInitialForm : List (String × String) :=
  [("age", ""), ("sex", "1"), ("cp", "0"), ("trestbps", ""), ("chol", ""),
   ("fbs", "0"), ("restecg", "0"), ("thalach", ""), ("exang", "0"),
   ("slope", "0"), ("ca", "0"), ("thal", "1")]

/-- The generator `getRandomHeartData` from sampleData.ts: thirteen keys in source order
(including `oldpeak`), each value a formatted random draw; `rand i` stands
for the `i`-th `getRandomNumber` call's formatted result. -/
def getRandomHeartData (rand : Nat → String) : List (String × String) :=
  [("age", rand 0), ("sex", rand 1), ("cp", rand 2), ("trestbps", rand 3),
   ("chol", rand 4), ("fbs", rand 5), ("restecg", rand 6),
   ("thalach", rand 7), ("exang", rand 8), ("oldpeak", rand 9),
   ("slope", rand 10), ("ca", rand 11), ("thal", rand 12)]

/-- The handler `handleInputChange`, `setFormData(prev => ({...prev, [name]: value}))`
— replace the value of an existing key in place, else append the key. -/
def setField (form : List (String × String)) (name value : String) :
    List (String × String) :=
  if form.any (fun kv => kv.1 == name) then
    form.map (fun kv => if kv.1 == name then (kv.1, value) else kv)
  else form ++ [(name, value)]

/-- The request body built by the heart `handlePredict`: one member per
state key in order, each value `parseFloat(value)`. -/
def heartRequest (form : List (String × String)) : List (String × JVal) :=
  form.map (fun kv => (kv.1, jsParseFloat kv.2))

/-- The field names of a heart request: `Object.entries(formData)` keys in
order. -/
def heartRequestKeys (form : List (String × String)) : List String :=
  form.map Prod.fst

/-! ## Kidney and breast client forms (kidney page `handleSubmit`,
src/app/breast/page.tsx `handleSubmit`) -/

/-- The kidney page's `numericFields` list, verbatim. -/
def kidneyNumericFields : List String :=
  ["age", "bp", "sg", "al", "su", "bgr", "bu", "sc",
   "sod", "pot", "hemo", "pcv", "wc", "rc"]

/-- The kidney `handleSubmit` transformation: numeric fields become
`value === '' ? 0 : Number(value)`, all other fields keep their string
token. -/
def transformKidney (form : List (String × String)) : List (String × JVal) :=
  form.map (fun kv => (kv.1,
    if kidneyNumericFields.contains kv.1 then
      if kv.2 = "" then JVal.num 0 else jsNumberVal kv.2
    else JVal.str kv.2))

/-- The breast `handleSubmit` transformation: every field becomes
`value === '' ? 0 : parseFloat(value)`. -/
def transformBreast (form : List (String × String)) : List (String × JVal) :=
  form.map (fun kv => (kv.1,
    if kv.2 = "" then JVal.num 0 else jsParseFloat kv.2))

/-! ## Risk classifier adapter and categorical encoding

The backend prediction service is not part of the repository snapshot
(only the symptom helper is), so these two pieces are modelled from the
spec. -/

/-- The three risk buckets of a PredictionResult. -/
inductive RiskLevel where
  | Low
  | Medium
  | High
deriving DecidableEq, Repr

/-- Modelled from the spec: `classify(probability) -> {prediction,
risk_level}` of the Risk Classifier Adapter, whose backend implementation
is absent from the snapshot.  `prediction = probability ≥ 0.5`;
`risk_level` is Low below 0.3, Medium in [0.3, 0.7), High from 0.7. -/
def classify (p : ℚ) : Bool × RiskLevel :=
  (decide (mkRat 1 2 ≤ p),
   if p < mkRat 3 10 then RiskLevel.Low
   else if p < mkRat 7 10 then RiskLevel.Medium
   else RiskLevel.High)

/-- Vectorization failure on a categorical field. -/
inductive VectorizationError where
  | UnknownCategoryToken (field token : String)
deriving DecidableEq, Repr

/-- Modelled from the spec: the tabular vectorizer's categorical lookup,
absent from the snapshot — look the raw token up in the field's
encodingRule; an absent token is a hard `UnknownCategoryToken` error, with
no fallback to a known code. -/
def encodeCategory (rule : List (String × Nat)) (field token : String) :
    Except VectorizationError Nat :=
  match rule.find? (fun r => r.1 == token) with
  | some r => .ok r.2
  | none => .error (.UnknownCategoryToken field token)

/-- Modelled from the spec: the kidney `appet` field's encoding table; its
accepted tokens are exactly `good` and `poor`. -/
def appetRule : List (String × Nat) := [("good", 0), ("poor", 1)]

/-! ## Lung and Parkinsons result presentation

The lung page (appended to src/app/diabetes/page.tsx) renders its
high-risk message when `prediction.probability < 0.5`; the Parkinsons page
renders its high-risk message when `prediction.probability >= 0.5`.  Both
feed the probability itself (scaled to percent) into the displayed
number. -/

/-- Which of the two fixed result messages a form renders. -/
inductive RiskMessage where
  | highRisk
  | lowRisk
deriving DecidableEq, Repr

/-- The lung page's message choice: `prediction.probability < 0.5` selects
the high-risk text. -/
def lungMessage (p : ℚ) : RiskMessage :=
  if p < mkRat 1 2 then .highRisk else .lowRisk

/-- The Parkinsons page's message choice: `prediction.probability >= 0.5`
selects the high-risk text. -/
def parkinsonsMessage (p : ℚ) : RiskMessage :=
  if mkRat 1 2 ≤ p then .highRisk else .lowRisk

/-- The value whose percentage the lung page displays
(`Math.round(prediction.probability * 100)`): the service probability
itself. -/
def lungDisplayedProbability (p : ℚ) : ℚ := p

/-- The value whose percentage the Parkinsons page displays
(`(prediction.probability * 100).toFixed(1)`): the service probability
itself. -/
def parkinsonsDisplayedProbability (p : ℚ) : ℚ := p

/-! ### Basic lemmas about the matching primitives -/

theorem matchingCols_eq_nil_iff (columns : List String) (s : String) :
    matchingCols columns s = [] ↔ ∀ c ∈ columns, lowerEq c s = false := by
  rw [matchingCols, List.filter_eq_nil_iff]
  simp

theorem firstMatchIdx_eq_none_iff (columns : List String) (s : String) :
    firstMatchIdx columns s = none ↔ ∀ c ∈ columns, lowerEq c s = false := by
  induction columns with
  | nil => simp [firstMatchIdx]
  | cons x xs ih =>
    by_cases hx : lowerEq x s = true
    · simp [firstMatchIdx, hx]
    · simp only [Bool.not_eq_true] at hx
      simp [firstMatchIdx, hx, ih]

theorem matchingCols_head_mem {columns : List String} {s c : String}
    {rest : List String} (h : matchingCols columns s = c :: rest) :
    c ∈ columns ∧ lowerEq c s = true := by
  have hc : c ∈ matchingCols columns s := by simp [h]
  have := List.mem_filter.mp hc
  exact ⟨this.1, this.2⟩

/-- The head of `matching_cols` sits exactly at the first matching index:
`get_loc` of `matching_cols[0]` is `firstMatchIdx`. -/
theorem firstMatchIdx_eq_getLoc_head {columns : List String} {s c : String}
    {rest : List String} (h : matchingCols columns s = c :: rest) :
    firstMatchIdx columns s = some (getLoc columns c) := by
  induction columns with
  | nil => simp [matchingCols] at h
  | cons x xs ih =>
    by_cases hx : lowerEq x s = true
    · have hxc : x = c := by
        simp [matchingCols, List.filter_cons, hx] at h
        exact h.1
      subst hxc
      simp [firstMatchIdx, hx, getLoc]
    · have hx' : lowerEq x s = false := by
        simp only [Bool.not_eq_true] at hx; exact hx
      have h' : matchingCols xs s = c :: rest := by
        simpa [matchingCols, List.filter_cons, hx'] using h
      have hcs := matchingCols_head_mem h'
      have hxc : (x == c) = false := by
        apply beq_eq_false_iff_ne.mpr
        intro hEq
        subst hEq
        exact absurd hcs.2 (by simp [hx'])
      rw [getLoc]
      simp only [hxc, if_false]
      simp [firstMatchIdx, hx', ih h']

/-! ### Loop invariants of the symptom loop -/

/-- One loop iteration either leaves the array unchanged or sets a single
in-range slot to 1. -/
theorem stepSymptom_fst_cases (columns : List String)
    (acc : List Nat × List LogEntry) (t : Token) :
    (stepSymptom columns acc t).1 = acc.1 ∨
    ∃ i, i < acc.1.length ∧ (stepSymptom columns acc t).1 = acc.1.set i 1 := by
  rcases t with s | s
  · rw [stepSymptom, processSymptom]
    rcases hm : matchingCols columns s with _ | ⟨c, rest⟩
    · exact Or.inl rfl
    · dsimp only
      by_cases hi : getLoc columns c < acc.1.length
      · right
        exact ⟨getLoc columns c, hi, by simp [hi]⟩
      · left
        simp [hi]
  · exact Or.inl rfl

theorem stepSymptom_length (columns : List String)
    (acc : List Nat × List LogEntry) (t : Token) :
    (stepSymptom columns acc t).1.length = acc.1.length := by
  rcases stepSymptom_fst_cases columns acc t with h | ⟨i, _, h⟩ <;> simp [h]

theorem foldl_stepSymptom_length (columns : List String) (symptoms : List Token) :
    ∀ acc : List Nat × List LogEntry,
      (symptoms.foldl (stepSymptom columns) acc).1.length = acc.1.length := by
  induction symptoms with
  | nil => intro acc; rfl
  | cons t ts ih =>
    intro acc
    rw [List.foldl_cons, ih, stepSymptom_length]

/-- A slot already set to 1 is never unset by later iterations. -/
theorem stepSymptom_preserves_one {k : Nat} (columns : List String)
    (acc : List Nat × List LogEntry) (t : Token) (h : acc.1[k]? = some 1) :
    (stepSymptom columns acc t).1[k]? = some 1 := by
  rcases stepSymptom_fst_cases columns acc t with hc | ⟨i, hi, hc⟩
  · rw [hc]; exact h
  · rw [hc, List.getElem?_set]
    by_cases hik : i = k
    · simp [hik, hik ▸ hi]
    · simp [hik, h]

theorem foldl_preserves_one {k : Nat} (columns : List String) (symptoms : List Token) :
    ∀ acc : List Nat × List LogEntry, acc.1[k]? = some 1 →
      (symptoms.foldl (stepSymptom columns) acc).1[k]? = some 1 := by
  induction symptoms with
  | nil => intro acc h; exact h
  | cons t ts ih =>
    intro acc h
    exact ih _ (stepSymptom_preserves_one columns acc t h)

/-- Diagnostics only accumulate: an entry already logged stays logged. -/
theorem stepSymptom_log_mono (columns : List String)
    (acc : List Nat × List LogEntry) (t : Token) {e : LogEntry} (h : e ∈ acc.2) :
    e ∈ (stepSymptom columns acc t).2 := by
  rw [stepSymptom]
  rcases hp : processSymptom columns acc.1 t with s | ⟨v, l⟩ <;>
    exact List.mem_append_left _ h

theorem foldl_log_mono (columns : List String) (symptoms : List Token) :
    ∀ (acc : List Nat × List LogEntry) (e : LogEntry), e ∈ acc.2 →
      e ∈ (symptoms.foldl (stepSymptom columns) acc).2 := by
  induction symptoms with
  | nil => intro acc e h; exact h
  | cons t ts ih =>
    intro acc e h
    exact ih _ _ (stepSymptom_log_mono columns acc t h)

/-- Processing a token whose first case-insensitive match is the in-range
slot `k` sets that slot and logs nothing. -/
theorem stepSymptom_ok_match {columns : List String} {s : String} {k : Nat}
    (acc : List Nat × List LogEntry)
    (hk : firstMatchIdx columns s = some k) (hlt : k < acc.1.length) :
    stepSymptom columns acc (.ok s) = (acc.1.set k 1, acc.2) := by
  rcases hm : matchingCols columns s with _ | ⟨c, rest⟩
  · exfalso
    have hnone : firstMatchIdx columns s = none :=
      (firstMatchIdx_eq_none_iff columns s).mpr
        ((matchingCols_eq_nil_iff columns s).mp hm)
    rw [hnone] at hk
    cases hk
  · have hg := firstMatchIdx_eq_getLoc_head hm
    rw [hk] at hg
    have hgk : getLoc columns c = k := by
      injection hg with h'
      exact h'.symm
    rw [stepSymptom, processSymptom, hm]
    dsimp only
    rw [hgk, if_pos hlt]
    simp

/-- Processing a token with no case-insensitive match leaves the array
unchanged and logs the not-found warning. -/
theorem stepSymptom_no_match {columns : List String} {s : String}
    (acc : List Nat × List LogEntry) (h : ∀ c ∈ columns, lowerEq c s = false) :
    stepSymptom columns acc (.ok s) = (acc.1, acc.2 ++ [.notFound s]) := by
  rw [stepSymptom, processSymptom, (matchingCols_eq_nil_iff columns s).mpr h]

/-- A raising token is absorbed: the array is untouched and the error is
logged. -/
theorem stepSymptom_raises (columns : List String)
    (acc : List Nat × List LogEntry) (t : Token)
    (hlen : acc.1.length = columns.length - 1) (hr : raisesOn columns t = true) :
    stepSymptom columns acc t = (acc.1, acc.2 ++ [.procError (tokenStr t)]) := by
  rcases t with s | s
  · rw [raisesOn] at hr
    rcases hk : firstMatchIdx columns s with _ | k
    · rw [hk] at hr
      cases hr
    · rw [hk] at hr
      have hge : columns.length - 1 ≤ k := of_decide_eq_true hr
      rcases hm : matchingCols columns s with _ | ⟨c, rest⟩
      · exfalso
        have hnone : firstMatchIdx columns s = none :=
          (firstMatchIdx_eq_none_iff columns s).mpr
            ((matchingCols_eq_nil_iff columns s).mp hm)
        rw [hnone] at hk
        cases hk
      · have hg := firstMatchIdx_eq_getLoc_head hm
        rw [hk] at hg
        have hgk : getLoc columns c = k := by
          injection hg with h'
          exact h'.symm
        rw [stepSymptom, processSymptom, hm]
        dsimp only
        rw [hgk, hlen, if_neg (by omega)]
        rfl
  · rfl

theorem vecStep_eq_step_fst (columns : List String) (vec : List Nat)
    (log : List LogEntry) (t : Token) :
    vecStep columns vec t = (stepSymptom columns (vec, log) t).1 := by
  rw [vecStep, stepSymptom]
  rcases hp : processSymptom columns vec t with s | ⟨v, l⟩ <;> rfl

theorem foldl_fst_eq (columns : List String) (symptoms : List Token) :
    ∀ acc : List Nat × List LogEntry,
      (symptoms.foldl (stepSymptom columns) acc).1
        = symptoms.foldl (vecStep columns) acc.1 := by
  induction symptoms with
  | nil => intro acc; rfl
  | cons t ts ih =>
    intro acc
    rw [List.foldl_cons, List.foldl_cons, ih]
    congr 1
    rw [vecStep_eq_step_fst columns acc.1 acc.2 t]

theorem foldl_vecStep_length (columns : List String) (symptoms : List Token) :
    ∀ vec : List Nat, (symptoms.foldl (vecStep columns) vec).length = vec.length := by
  induction symptoms with
  | nil => intro vec; rfl
  | cons t ts ih =>
    intro vec
    rw [List.foldl_cons, ih, vecStep_eq_step_fst columns vec [] t,
      stepSymptom_length]

theorem vecStep_raises (columns : List String) (vec : List Nat) (t : Token)
    (hlen : vec.length = columns.length - 1) (hr : raisesOn columns t = true) :
    vecStep columns vec t = vec := by
  rw [vecStep_eq_step_fst columns vec [] t,
    stepSymptom_raises columns (vec, []) t hlen hr]

/-! ### Claims about the symptom-path vectorizer -/

/-- C1: for every input symptom list (including the empty list),
`prepare_symptoms_array` returns a vector whose length equals the size of
the symptom vocabulary captured at model-load time (the dataset's column
count minus one), regardless of how many input symptoms matched; for the
empty list the returned vector is all zeros. -/
theorem symptom_vector_length_invariant (columns : List String)
    (symptoms : List Token) (_h : 0 < columns.length) :
    (prepare_symptoms_array columns symptoms).1.length = columns.length - 1 ∧
    (prepare_symptoms_array columns []).1 =
      List.replicate (columns.length - 1) 0 := by
  constructor
  · rw [prepare_symptoms_array, foldl_stepSymptom_length, List.length_replicate]
  · rfl

theorem symptom_vector_length_invariant_witness :
    0 < (["Itching", "Fever", "prognosis"] : List String).length ∧
    ((prepare_symptoms_array ["Itching", "Fever", "prognosis"]
        [Token.ok "fever", Token.ok "unicorn"]).1.length =
      (["Itching", "Fever", "prognosis"] : List String).length - 1 ∧
     (prepare_symptoms_array ["Itching", "Fever", "prognosis"] []).1 =
      List.replicate ((["Itching", "Fever", "prognosis"] : List String).length - 1) 0) :=
  ⟨by decide,
   symptom_vector_length_invariant ["Itching", "Fever", "prognosis"]
     [Token.ok "fever", Token.ok "unicorn"] (by decide)⟩

/-- C2: a list containing one vocabulary-matching symptom and one symptom
with no vocabulary match produces exactly the vector of the list containing
only the matching symptom; no error is raised, and the unmatched symptom is
only logged as a not-found diagnostic (the whole log is that single
warning). -/
theorem unknown_symptom_tolerance (columns : List String) (v u : String)
    (k : Nat) (hv : firstMatchIdx columns v = some k)
    (hk : k < columns.length - 1)
    (hu : ∀ c ∈ columns, lowerEq c u = false) :
    (prepare_symptoms_array columns [Token.ok v, Token.ok u]).1 =
      (prepare_symptoms_array columns [Token.ok v]).1 ∧
    (prepare_symptoms_array columns [Token.ok v, Token.ok u]).2 =
      [LogEntry.notFound u] := by
  have hlen : (List.replicate (columns.length - 1) (0 : Nat)).length
      = columns.length - 1 := List.length_replicate ..
  have h1 : stepSymptom columns
      (List.replicate (columns.length - 1) 0, ([] : List LogEntry)) (.ok v)
      = ((List.replicate (columns.length - 1) 0).set k 1, []) :=
    stepSymptom_ok_match _ hv (by rw [hlen]; exact hk)
  have h2 := stepSymptom_no_match
    (((List.replicate (columns.length - 1) 0).set k 1, ([] : List LogEntry))) hu
  constructor <;>
    simp [prepare_symptoms_array, List.foldl, h1, h2]

theorem unknown_symptom_tolerance_witness :
    (firstMatchIdx ["Itching", "Skin Rash", "prognosis"] "ITCHING" = some 0 ∧
     0 < (["Itching", "Skin Rash", "prognosis"] : List String).length - 1 ∧
     (∀ c ∈ (["Itching", "Skin Rash", "prognosis"] : List String),
        lowerEq c "unicorn" = false)) ∧
    ((prepare_symptoms_array ["Itching", "Skin Rash", "prognosis"]
        [Token.ok "ITCHING", Token.ok "unicorn"]).1 =
      (prepare_symptoms_array ["Itching", "Skin Rash", "prognosis"]
        [Token.ok "ITCHING"]).1 ∧
     (prepare_symptoms_array ["Itching", "Skin Rash", "prognosis"]
        [Token.ok "ITCHING", Token.ok "unicorn"]).2 =
      [LogEntry.notFound "unicorn"]) :=
  ⟨⟨by decide, by decide, by decide⟩,
   unknown_symptom_tolerance ["Itching", "Skin Rash", "prognosis"]
     "ITCHING" "unicorn" 0 (by decide) (by decide) (by decide)⟩

/-- C3: a token whose processing raises (a malformed token, or one whose
assignment falls outside the array) is caught and logged, and never aborts
vectorization: the returned vector equals the one for the list with that
token removed, still has the full vocabulary length, and the error is
logged naming the symptom. -/
theorem malformed_symptom_isolated (columns : List String)
    (l1 l2 : List Token) (t : Token) (hr : raisesOn columns t = true) :
    (prepare_symptoms_array columns (l1 ++ t :: l2)).1 =
      (prepare_symptoms_array columns (l1 ++ l2)).1 ∧
    (prepare_symptoms_array columns (l1 ++ t :: l2)).1.length =
      columns.length - 1 ∧
    LogEntry.procError (tokenStr t) ∈
      (prepare_symptoms_array columns (l1 ++ t :: l2)).2 := by
  refine ⟨?_, ?_, ?_⟩
  · rw [prepare_symptoms_array, prepare_symptoms_array, foldl_fst_eq,
      foldl_fst_eq]
    dsimp only
    rw [List.foldl_append, List.foldl_append, List.foldl_cons]
    congr 1
    apply vecStep_raises columns _ t _ hr
    rw [foldl_vecStep_length, List.length_replicate]
  · rw [prepare_symptoms_array, foldl_stepSymptom_length, List.length_replicate]
  · rw [prepare_symptoms_array, List.foldl_append, List.foldl_cons]
    have hlen1 : ((List.foldl (stepSymptom columns)
        (List.replicate (columns.length - 1) 0, []) l1)).1.length =
        columns.length - 1 := by
      rw [foldl_stepSymptom_length, List.length_replicate]
    have hstep := stepSymptom_raises columns
      (List.foldl (stepSymptom columns)
        (List.replicate (columns.length - 1) 0, []) l1) t hlen1 hr
    apply foldl_log_mono
    rw [hstep]
    exact List.mem_append_right _ (by simp)

theorem malformed_symptom_isolated_witness :
    raisesOn ["Itching", "Fever", "prognosis"] (Token.bad "12") = true ∧
    ((prepare_symptoms_array ["Itching", "Fever", "prognosis"]
        ([Token.ok "fever"] ++ Token.bad "12" :: [Token.ok "Itching"])).1 =
      (prepare_symptoms_array ["Itching", "Fever", "prognosis"]
        ([Token.ok "fever"] ++ [Token.ok "Itching"])).1 ∧
     (prepare_symptoms_array ["Itching", "Fever", "prognosis"]
        ([Token.ok "fever"] ++ Token.bad "12" :: [Token.ok "Itching"])).1.length =
      (["Itching", "Fever", "prognosis"] : List String).length - 1 ∧
     LogEntry.procError (tokenStr (Token.bad "12")) ∈
      (prepare_symptoms_array ["Itching", "Fever", "prognosis"]
        ([Token.ok "fever"] ++ Token.bad "12" :: [Token.ok "Itching"])).2) :=
  ⟨by decide,
   malformed_symptom_isolated ["Itching", "Fever", "prognosis"]
     [Token.ok "fever"] [Token.ok "Itching"] (Token.bad "12") (by decide)⟩

/-- C4 counterexample: the claim says the slot of EACH vocabulary entry
whose case-folded form equals the case-folded token is set to 1.  With
vocabulary entries "Chills" and "chills" (both case-fold to "chills") and
input token "CHILLS", both slots should be 1; the code computes the full
match list but assigns only `matching_cols[0]`, leaving the second slot 0. -/
theorem first_match_only_counterexample :
    lowerEq "chills" "CHILLS" = true ∧
    (prepare_symptoms_array ["Chills", "chills", "prognosis"]
      [Token.ok "CHILLS"]).1 = [1, 0] ∧
    ¬ (prepare_symptoms_array ["Chills", "chills", "prognosis"]
        [Token.ok "CHILLS"]).1[1]? = some 1 := by
  refine ⟨by decide, by decide, by decide⟩

/-- C4 amended: for each input symptom the code compares the case-folded
token against the case-folded form of every column (the columns themselves
kept in original case), and the FeatureVector slot of the FIRST vocabulary
entry whose normalized form equals the normalized token is set to 1 (later
entries with the same normalized form are not set; when normalized
vocabulary entries are pairwise distinct this is the unique match). -/
theorem first_matching_slot_is_set (columns : List String)
    (symptoms : List Token) (s : String) (k : Nat)
    (hmem : Token.ok s ∈ symptoms) (hk : firstMatchIdx columns s = some k)
    (hlt : k < columns.length - 1) :
    (prepare_symptoms_array columns symptoms).1[k]? = some 1 := by
  rcases List.append_of_mem hmem with ⟨l1, l2, rfl⟩
  rw [prepare_symptoms_array, List.foldl_append, List.foldl_cons]
  apply foldl_preserves_one
  have hlen1 : ((List.foldl (stepSymptom columns)
      (List.replicate (columns.length - 1) 0, []) l1)).1.length =
      columns.length - 1 := by
    rw [foldl_stepSymptom_length, List.length_replicate]
  rw [stepSymptom_ok_match _ hk (by rw [hlen1]; exact hlt)]
  dsimp only
  rw [List.getElem?_set]
  simp [hlen1, hlt]

theorem first_matching_slot_is_set_witness :
    (Token.ok "CHILLS" ∈ [Token.ok "fever", Token.ok "CHILLS"] ∧
     firstMatchIdx ["Fever", "Chills", "prognosis"] "CHILLS" = some 1 ∧
     1 < (["Fever", "Chills", "prognosis"] : List String).length - 1) ∧
    (prepare_symptoms_array ["Fever", "Chills", "prognosis"]
      [Token.ok "fever", Token.ok "CHILLS"]).1[1]? = some 1 :=
  ⟨⟨by decide, by decide, by decide⟩,
   first_matching_slot_is_set ["Fever", "Chills", "prognosis"]
     [Token.ok "fever", Token.ok "CHILLS"] "CHILLS" 1 (by decide) (by decide)
     (by decide)⟩

/-! ### Key-structure lemmas for the heart form -/

/-- An edit through `handleInputChange` with an existing key preserves the
form's key list. -/
theorem setField_keys (form : List (String × String)) (name value : String)
    (h : name ∈ form.map Prod.fst) :
    (setField form name value).map Prod.fst = form.map Prod.fst := by
  rcases List.mem_map.mp h with ⟨kv, hkv, hname⟩
  rw [setField, if_pos]
  · rw [List.map_map]
    refine List.map_congr_left fun kv' _ => ?_
    by_cases hk : kv'.1 = name <;> simp [hk]
  · exact List.any_eq_true.mpr ⟨kv, hkv, by simp [beq_iff_eq, hname]⟩

theorem foldl_setField_keys (edits : List (String × String)) :
    ∀ form : List (String × String),
      (∀ e ∈ edits, e.1 ∈ form.map Prod.fst) →
      (edits.foldl (fun f e => setField f e.1 e.2) form).map Prod.fst =
        form.map Prod.fst := by
  induction edits with
  | nil => intro form _; rfl
  | cons e es ih =>
    intro form h
    rw [List.foldl_cons]
    have h1 := setField_keys form e.1 e.2 (h e (by simp))
    rw [ih _ ?_, h1]
    intro e' he'
    rw [h1]
    exact h e' (by simp [he'])

/-! ### Claims about the adapter, the client forms and the presentation -/

/-- C5: `classify` maps a probability to {prediction, risk_level} by fixed
thresholds: prediction is true exactly when probability ≥ 0.5, and
risk_level is Low below 0.3, Medium in [0.3, 0.7) and High from 0.7; in
particular classify(0.5) predicts true, classify(0.4999) predicts false,
and 0.29999 → Low, 0.3 → Medium, 0.69999 → Medium, 0.7 → High. -/
theorem classify_threshold_policy :
    (∀ p : ℚ,
      ((classify p).1 = true ↔ mkRat 1 2 ≤ p) ∧
      ((classify p).2 = RiskLevel.Low ↔ p < mkRat 3 10) ∧
      ((classify p).2 = RiskLevel.Medium ↔ mkRat 3 10 ≤ p ∧ p < mkRat 7 10) ∧
      ((classify p).2 = RiskLevel.High ↔ mkRat 7 10 ≤ p)) ∧
    classify (mkRat 1 2) = (true, RiskLevel.Medium) ∧
    classify (mkRat 4999 10000) = (false, RiskLevel.Medium) ∧
    (classify (mkRat 29999 100000)).2 = RiskLevel.Low ∧
    (classify (mkRat 3 10)).2 = RiskLevel.Medium ∧
    (classify (mkRat 69999 100000)).2 = RiskLevel.Medium ∧
    (classify (mkRat 7 10)).2 = RiskLevel.High := by
  refine ⟨?_, by decide, by decide, by decide, by decide, by decide, by decide⟩
  intro p
  have h37 : mkRat 3 10 < mkRat 7 10 := by decide
  refine ⟨by simp [classify], ?_, ?_, ?_⟩ <;>
    rw [show (classify p).2 = (if p < mkRat 3 10 then RiskLevel.Low
          else if p < mkRat 7 10 then RiskLevel.Medium
          else RiskLevel.High) from rfl] <;>
    split_ifs with h3 h7
  · exact iff_of_true rfl h3
  · exact iff_of_false (by simp) h3
  · exact iff_of_false (by simp) h3
  · exact iff_of_false (by simp)
      (fun hc => absurd h3 (not_lt.mpr hc.1))
  · exact iff_of_true rfl ⟨not_lt.mp h3, h7⟩
  · exact iff_of_false (by simp)
      (fun hc => h7 hc.2)
  · exact iff_of_false (by simp)
      (fun hc => absurd (lt_trans h3 h37) (not_lt.mpr hc))
  · exact iff_of_false (by simp)
      (fun hc => absurd h7 (not_lt.mpr hc))
  · exact iff_of_true rfl (not_lt.mp h7)

/-- C6: the diabetes request for {Pregnancies:4, Glucose:130,
BloodPressure:78, SkinThickness:25, Insulin:120, BMI:28.5,
DiabetesPedigreeFunction:0.85, Age:35} carries exactly the 8 numeric values
[4, 130, 78, 25, 120, 28.5, 0.85, 35] in that field order. -/
theorem diabetes_vectorization_scenario :
    diabetesRequestBody
        ⟨"4", "130", "78", "25", "120", "28.5", "0.85", "35"⟩ =
      some [("Pregnancies", mkRat 4 1), ("Glucose", mkRat 130 1),
        ("BloodPressure", mkRat 78 1), ("SkinThickness", mkRat 25 1),
        ("Insulin", mkRat 120 1), ("BMI", mkRat 57 2),
        ("DiabetesPedigreeFunction", mkRat 17 20), ("Age", mkRat 35 1)] ∧
    (diabetesRequestBody
        ⟨"4", "130", "78", "25", "120", "28.5", "0.85", "35"⟩).map
      (fun body => body.map Prod.snd) =
      some [mkRat 4 1, mkRat 130 1, mkRat 78 1, mkRat 25 1, mkRat 120 1,
        mkRat 57 2, mkRat 17 20, mkRat 35 1] := by
  constructor <;> decide

/-- C7 counterexample: populating the heart form through the sample-data
generator yields a request with 13 fields (`oldpeak` included), not 12;
the claim that every heart request has exactly 12 fields fails on the
sample-data path. -/
theorem heart_sample_data_field_count_counterexample :
    (heartRequest (getRandomHeartData (fun _ => "1"))).length = 13 ∧
    "oldpeak" ∈ heartRequestKeys (getRandomHeartData (fun _ => "1")) ∧
    ¬ (heartRequest (getRandomHeartData (fun _ => "1"))).length = 12 := by
  refine ⟨by decide, by decide, by decide⟩

/-- C7 amended: a heart request built from the manually edited form
(edits through `handleInputChange` on the 12 rendered input names)
contains exactly the 12 fields age, sex, cp, trestbps, chol, fbs, restecg,
thalach, exang, slope, ca, thal in source order; a request built after the
sample-data generator instead contains 13 fields, the extra one being
`oldpeak`, which no rendered input edits. -/
theorem heart_request_fields (edits : List (String × String))
    (rand : Nat → String)
    (hnames : ∀ e ∈ edits, e.1 ∈ heartRequestKeys heartInitialForm) :
    heartRequestKeys
        (edits.foldl (fun f e => setField f e.1 e.2) heartInitialForm) =
      ["age", "sex", "cp", "trestbps", "chol", "fbs", "restecg", "thalach",
       "exang", "slope", "ca", "thal"] ∧
    (heartRequest
        (edits.foldl (fun f e => setField f e.1 e.2) heartInitialForm)).length
      = 12 ∧
    (heartRequest (getRandomHeartData rand)).length = 13 ∧
    "oldpeak" ∈ heartRequestKeys (getRandomHeartData rand) := by
  have hkeys := foldl_setField_keys edits heartInitialForm hnames
  refine ⟨?_, ?_, rfl, ?_⟩
  · rw [heartRequestKeys, hkeys]
    rfl
  · rw [heartRequest, List.length_map, ← List.length_map _ Prod.fst]
    rw [show (List.foldl (fun f e => setField f e.1 e.2) heartInitialForm
        edits).map Prod.fst = heartInitialForm.map Prod.fst from hkeys]
    rfl
  · show "oldpeak" ∈ (getRandomHeartData rand).map Prod.fst
    simp [getRandomHeartData]

theorem heart_request_fields_witness :
    (∀ e ∈ [("age", "63"), ("chol", "233")],
      e.1 ∈ heartRequestKeys heartInitialForm) ∧
    (heartRequestKeys
        ([("age", "63"), ("chol", "233")].foldl
          (fun f e => setField f e.1 e.2) heartInitialForm) =
      ["age", "sex", "cp", "trestbps", "chol", "fbs", "restecg", "thalach",
       "exang", "slope", "ca", "thal"] ∧
    (heartRequest
        ([("age", "63"), ("chol", "233")].foldl
          (fun f e => setField f e.1 e.2) heartInitialForm)).length = 12 ∧
    (heartRequest (getRandomHeartData (fun _ => "2"))).length = 13 ∧
    "oldpeak" ∈ heartRequestKeys (getRandomHeartData (fun _ => "2"))) :=
  ⟨by decide,
   heart_request_fields [("age", "63"), ("chol", "233")] (fun _ => "2")
     (by decide)⟩

/-- C8: a kidney request whose `appet` field carries a token outside
{good, poor} fails vectorization with `UnknownCategoryToken` — it is never
mapped to either known code — and the client transformation passes the
token through unchanged (no component between the form and the model
substitutes a default). -/
theorem unknown_category_token_hard_error (tok : String)
    (h1 : tok ≠ "good") (h2 : tok ≠ "poor")
    (form : List (String × String)) (v : String)
    (hv : ("appet", v) ∈ form) :
    encodeCategory appetRule "appet" tok =
      .error (.UnknownCategoryToken "appet" tok) ∧
    (∀ c : Nat, encodeCategory appetRule "appet" tok ≠ .ok c) ∧
    ("appet", JVal.str v) ∈ transformKidney form := by
  have hfind : appetRule.find? (fun r => r.1 == tok) = none := by
    rw [appetRule]
    rw [List.find?_cons_of_neg _ (by simp [beq_iff_eq]; exact Ne.symm h1),
      List.find?_cons_of_neg _ (by simp [beq_iff_eq]; exact Ne.symm h2)]
    rfl
  refine ⟨?_, ?_, ?_⟩
  · rw [encodeCategory, hfind]
  · intro c hc
    rw [encodeCategory, hfind] at hc
    cases hc
  · refine List.mem_map.mpr ⟨("appet", v), hv, ?_⟩
    show ("appet",
      if kidneyNumericFields.contains "appet" then
        if v = "" then JVal.num 0 else jsNumberVal v
      else JVal.str v) = ("appet", JVal.str v)
    rw [show kidneyNumericFields.contains "appet" = false from by decide]
    rfl

theorem unknown_category_token_hard_error_witness :
    ("excellent" ≠ "good" ∧ "excellent" ≠ "poor" ∧
      ("appet", "excellent") ∈ [("appet", "excellent")]) ∧
    (encodeCategory appetRule "appet" "excellent" =
      .error (.UnknownCategoryToken "appet" "excellent") ∧
    (∀ c : Nat, encodeCategory appetRule "appet" "excellent" ≠ .ok c) ∧
    ("appet", JVal.str "excellent") ∈
      transformKidney [("appet", "excellent")]) :=
  ⟨⟨by decide, by decide, by decide⟩,
   unknown_category_token_hard_error "excellent" (by decide) (by decide)
     [("appet", "excellent")] "excellent" (by decide)⟩

/-- C9: the lung and Parkinsons forms present the same probability with
opposite polarity: every p < 0.5 makes the lung form render its high-risk
message while the Parkinsons form renders its low-risk message, and
conversely for p ≥ 0.5; the value each form displays is the service's
probability field unmodified. -/
theorem opposite_probability_presentation :
    (∃ p : ℚ, p < mkRat 1 2 ∧ lungMessage p = RiskMessage.highRisk ∧
      parkinsonsMessage p = RiskMessage.lowRisk) ∧
    (∀ p : ℚ, p < mkRat 1 2 → lungMessage p = RiskMessage.highRisk ∧
      parkinsonsMessage p = RiskMessage.lowRisk) ∧
    (∀ p : ℚ, mkRat 1 2 ≤ p → lungMessage p = RiskMessage.lowRisk ∧
      parkinsonsMessage p = RiskMessage.highRisk) ∧
    (∀ p : ℚ, lungDisplayedProbability p = p ∧
      parkinsonsDisplayedProbability p = p) := by
  refine ⟨⟨mkRat 1 4, by decide, by decide, by decide⟩, ?_, ?_, ?_⟩
  · intro p hp
    exact ⟨by simp [lungMessage, hp], by simp [parkinsonsMessage, not_le.mpr hp]⟩
  · intro p hp
    exact ⟨by simp [lungMessage, not_lt.mpr hp], by simp [parkinsonsMessage, hp]⟩
  · intro p
    exact ⟨rfl, rfl⟩

/-- C10: in the kidney and breast client forms, a numeric field whose raw
form value is the empty string is sent to the prediction service as the
number 0 (neither rejected nor omitted: the transformed payload keeps
every key of the form in order). -/
theorem empty_numeric_fields_become_zero
    (kform bform : List (String × String)) (k b : String)
    (hk : (k, "") ∈ kform) (hkn : kidneyNumericFields.contains k = true)
    (hb : (b, "") ∈ bform) :
    (k, JVal.num 0) ∈ transformKidney kform ∧
    (b, JVal.num 0) ∈ transformBreast bform ∧
    (transformKidney kform).map Prod.fst = kform.map Prod.fst ∧
    (transformBreast bform).map Prod.fst = bform.map Prod.fst := by
  refine ⟨?_, ?_, ?_, ?_⟩
  · refine List.mem_map.mpr ⟨(k, ""), hk, ?_⟩
    show (k,
      if kidneyNumericFields.contains k then
        if ("" : String) = "" then JVal.num 0 else jsNumberVal ""
      else JVal.str "") = (k, JVal.num 0)
    rw [hkn]
    rfl
  · refine List.mem_map.mpr ⟨(b, ""), hb, ?_⟩
    simp
  · rw [transformKidney, List.map_map]
    exact List.map_congr_left fun kv _ => rfl
  · rw [transformBreast, List.map_map]
    exact List.map_congr_left fun kv _ => rfl

theorem empty_numeric_fields_become_zero_witness :
    (("age", "") ∈ [("age", ""), ("appet", "good")] ∧
      kidneyNumericFields.contains "age" = true ∧
      ("radius_mean", "") ∈ [("radius_mean", "")]) ∧
    (("age", JVal.num 0) ∈ transformKidney [("age", ""), ("appet", "good")] ∧
    ("radius_mean", JVal.num 0) ∈ transformBreast [("radius_mean", "")] ∧
    (transformKidney [("age", ""), ("appet", "good")]).map Prod.fst =
      [("age", ""), ("appet", "good")].map Prod.fst ∧
    (transformBreast [("radius_mean", "")]).map Prod.fst =
      [("radius_mean", "")].map Prod.fst) :=
  ⟨⟨by decide, by decide, by decide⟩,
   empty_numeric_fields_become_zero [("age", ""), ("appet", "good")]
     [("radius_mean", "")] "age" "radius_mean" (by decide) (by decide)
     (by decide)⟩

end Healthify
